import Mathlib

/-!
Direct2D demo application: resource lifecycle, bitmap contents and message dispatch.

A shallow embedding of `Source/Application.h` and `Source/Application.cpp`.

* A COM interface pointer is a nullable handle, `Option Handle`; `none` is `nullptr`.
* A member function is a function from the `Application` value (and the answers the
  operating system gives to the calls it makes) to the new `Application` value, the
  returned code and the list of API calls made, in program order.  A call made through a
  handle records the handle it was made on, so a call on a null handle is visible in the
  trace.
* `HRESULT` is a signed 32-bit code; `SUCCEEDED hr` is `hr >= 0`.
* `UINT` arithmetic is arithmetic on `Nat` reduced modulo `2 ^ 32`; a store outside the
  allocated buffer and an overflowing `int` addition have no result (`none`).
-/

namespace D2DApp

/-! ## Windows SDK constants and types used by the source -/

abbrev HRESULT := Int

/-- Value of `S_OK` in `winerror.h`. -/
def S_OK : HRESULT := 0

/-- Value of `E_FAIL` in `winerror.h`, `0x80004005` read as a signed 32-bit number. -/
def E_FAIL : HRESULT := -2147467259

/-- Value of `D2DERR_RECREATE_TARGET` in `d2derr.h`, `0x8899000C` read as a signed 32-bit number. -/
def D2DERR_RECREATE_TARGET : HRESULT := -2003238900

/-- The `SUCCEEDED` test of `winerror.h`: `((HRESULT)(hr)) >= 0`. -/
def SUCCEEDED (hr : HRESULT) : Bool := decide (0 ≤ hr)

/-- Largest value of a 32-bit `int`. -/
def INT_MAX : Int := 2147483647

def WM_CREATE : Nat := 1
def WM_DESTROY : Nat := 2
def WM_SIZE : Nat := 5
def WM_PAINT : Nat := 15
def WM_DISPLAYCHANGE : Nat := 126

/-- Identity of an object behind a non-null pointer. -/
abbrev Handle := Nat

/-- The two colours passed to `CreateSolidColorBrush`. -/
inductive Color where
  | dark_gray
  | deep_sky_blue
deriving DecidableEq

/-- The API calls the application makes; handle arguments are recorded as passed. -/
inductive Call where
  | D2D1CreateFactory
  | RegisterClassEx
  | CreateWindow (width height : Nat)
  | ShowWindow (hwnd : Option Handle)
  | UpdateWindow (hwnd : Option Handle)
  | GetClientRect (hwnd : Option Handle)
  | CreateHwndRenderTarget (factory hwnd : Option Handle) (width height : Nat)
  | CreateSolidColorBrush (target : Option Handle) (color : Color)
  | CreateBitmap (target : Option Handle) (width height pitch : Nat)
  | Release (object : Handle)
  | BeginDraw (target : Option Handle)
  | SetTransform (target : Option Handle)
  | Clear (target : Option Handle)
  | GetSize (target : Option Handle)
  | DrawLineVertical (target : Option Handle) (x : Int) (brush : Option Handle)
  | DrawLineHorizontal (target : Option Handle) (y : Int) (brush : Option Handle)
  | BitmapGetSize (bitmap : Option Handle)
  | DrawBitmap (target bitmap : Option Handle)
  | FillRectangle (target brush : Option Handle)
  | EndDraw (target : Option Handle)
  | Resize (target : Option Handle) (width height : Nat)
  | SetWindowLongPtr (hwnd : Handle) (value : Nat)
  | GetWindowLongPtr (hwnd : Handle)
  | InvalidateRect (hwnd : Handle)
  | ValidateRect (hwnd : Handle)
  | PostQuitMessage (code : Int)
  | DefWindowProc (hwnd : Handle) (message wparam : Nat) (lparam : Int)
deriving DecidableEq

/-- The answer to a creation call: the code it returns and the object it creates when it
succeeds. -/
structure Created where
  hr : HRESULT
  object : Handle
deriving DecidableEq

/-- The value a creation call leaves in its output pointer: the new object when the call
succeeds, `nullptr` when it fails. -/
def Created.out (c : Created) : Option Handle :=
  if SUCCEEDED c.hr then some c.object else none

/-! ## The application object (`Application.h`) -/

/-- The data members of `class Application`. `image_data` is the byte buffer the pointer
refers to, `none` while the pointer has not been assigned. -/
structure Application where
  window_handle : Option Handle
  direct2d_factory_ptr : Option Handle
  render_target_ptr : Option Handle
  dark_gray_brush_ptr : Option Handle
  blue_brush_ptr : Option Handle
  image_data : Option (List Nat)
  image_bitmap : Option Handle
deriving DecidableEq

/-- The template `SafeRelease(T **ppT)`: release a non-null pointer and null it. -/
def SafeRelease (ppT : Option Handle) : Option Handle × List Call :=
  match ppT with
  | some object => (none, [Call.Release object])
  | none => (none, [])

/-- Constructor `Application::Application()`: every member of the initialiser list is
`nullptr`; `image_data` is not in the list. -/
def Application.ctor : Application :=
  { window_handle := none
    direct2d_factory_ptr := none
    render_target_ptr := none
    dark_gray_brush_ptr := none
    blue_brush_ptr := none
    image_data := none
    image_bitmap := none }

/-- Destructor `Application::~Application()`. -/
def Application.dtor (app : Application) : Application × List Call :=
  let r1 := SafeRelease app.direct2d_factory_ptr
  let r2 := SafeRelease app.render_target_ptr
  let r3 := SafeRelease app.dark_gray_brush_ptr
  let r4 := SafeRelease app.blue_brush_ptr
  let r5 := SafeRelease app.image_bitmap
  ({ app with
      direct2d_factory_ptr := r1.1
      render_target_ptr := r2.1
      dark_gray_brush_ptr := r3.1
      blue_brush_ptr := r4.1
      image_bitmap := r5.1 },
   r1.2 ++ r2.2 ++ r3.2 ++ r4.2 ++ r5.2)

/-- Method `Application::discard_device_resources()`. -/
def discard_device_resources (app : Application) : Application × List Call :=
  let r1 := SafeRelease app.render_target_ptr
  let r2 := SafeRelease app.dark_gray_brush_ptr
  let r3 := SafeRelease app.blue_brush_ptr
  let r4 := SafeRelease app.image_bitmap
  ({ app with
      render_target_ptr := r1.1
      dark_gray_brush_ptr := r2.1
      blue_brush_ptr := r3.1
      image_bitmap := r4.1 },
   r1.2 ++ r2.2 ++ r3.2 ++ r4.2)

/-! ## Device resources -/

/-- What the system answers to the calls of `create_device_resources`, should they be made. -/
structure DeviceEnv where
  client_width : Nat
  client_height : Nat
  render_target : Created
  dark_gray_brush : Created
  blue_brush : Created
  bitmap : Created
deriving DecidableEq

/-- Method `Application::create_device_resources()`. The size read from the client rectangle
is `env.client_width` by `env.client_height`. -/
def create_device_resources (app : Application) (env : DeviceEnv) :
    HRESULT × Application × List Call :=
  if app.render_target_ptr.isNone then
    let t0 := [Call.GetClientRect app.window_handle,
               Call.CreateHwndRenderTarget app.direct2d_factory_ptr app.window_handle
                 env.client_width env.client_height]
    let hr0 := env.render_target.hr
    let app0 := { app with render_target_ptr := env.render_target.out }
    let s1 : HRESULT × Application × List Call :=
      if SUCCEEDED hr0 then
        (env.dark_gray_brush.hr,
         { app0 with dark_gray_brush_ptr := env.dark_gray_brush.out },
         t0 ++ [Call.CreateSolidColorBrush app0.render_target_ptr Color.dark_gray])
      else (hr0, app0, t0)
    let s2 : HRESULT × Application × List Call :=
      if SUCCEEDED s1.1 then
        (env.blue_brush.hr,
         { s1.2.1 with blue_brush_ptr := env.blue_brush.out },
         s1.2.2 ++ [Call.CreateSolidColorBrush s1.2.1.render_target_ptr Color.deep_sky_blue])
      else s1
    let s3 : HRESULT × Application × List Call :=
      if SUCCEEDED s2.1 then
        (env.bitmap.hr,
         { s2.2.1 with image_bitmap := env.bitmap.out },
         s2.2.2 ++ [Call.CreateBitmap s2.2.1.render_target_ptr 400 400 (400 * 4)])
      else s2
    s3
  else (S_OK, app, [])


/-! ## Single-precision arithmetic

The two `float` operations of the gradient are modelled exactly: a finite non-negative
`float` is the fraction it denotes, and every operation returns the correctly rounded
result (round to nearest, ties to even, 24-bit significand).  The values that occur lie
between `1 / 400` and `400`, far inside the normal range, so neither overflow nor
subnormal numbers are modelled. -/

/-- A finite non-negative floating-point value, kept as the fraction `num / den`. -/
structure FloatVal where
  num : Nat
  den : Nat
deriving DecidableEq

/-- Number of significand bits of `float`. -/
def FLT_MANT_DIG : Nat := 24

/-- With enough fuel (`fuel >= n` is plenty), the position of the leading one bit of `n`. -/
def floor_log2 : Nat → Nat → Nat
  | 0, _ => 0
  | fuel + 1, n => if n < 2 then 0 else floor_log2 fuel (n / 2) + 1

/-- The fraction `num / (den * 2 ^ s)`, numerator and denominator. -/
def scale_fraction (num den : Nat) (s : Int) : Nat × Nat :=
  if 0 ≤ s then (num, den * 2 ^ s.toNat) else (num * 2 ^ (-s).toNat, den)

/-- Nearest value to `num / den` with a `p`-bit significand, ties to even: with `2 ^ s` the
unit in the last place, the quotient `num / den / 2 ^ s` is rounded to an integer. -/
def round_to_precision (p num den : Nat) : FloatVal :=
  if num = 0 ∨ den = 0 then ⟨0, 1⟩ else
  let e : Int := (floor_log2 num num : Int) - (floor_log2 den den : Int) - (p : Int)
  let s : Int :=
    if (scale_fraction num den e).1 / (scale_fraction num den e).2 < 2 ^ p then e else e + 1
  let nd := scale_fraction num den s
  let q := nd.1 / nd.2
  let r := nd.1 % nd.2
  let m :=
    if 2 * r < nd.2 then q
    else if nd.2 < 2 * r then q + 1
    else if q % 2 = 0 then q else q + 1
  if 0 ≤ s then ⟨m * 2 ^ s.toNat, 1⟩ else ⟨m, 2 ^ (-s).toNat⟩

/-- Conversion of an unsigned integer to `float`. -/
def float_of_uint (n : Nat) : FloatVal := round_to_precision FLT_MANT_DIG n 1

/-- Division of two `float` values. -/
def float_div (a b : FloatVal) : FloatVal :=
  round_to_precision FLT_MANT_DIG (a.num * b.den) (a.den * b.num)

/-- Product of two `float` values. -/
def float_mul (a b : FloatVal) : FloatVal :=
  round_to_precision FLT_MANT_DIG (a.num * b.num) (a.den * b.den)

/-- Conversion `static_cast<byte>` of a `float`: the fraction is discarded and the integer
kept modulo `2 ^ 8`. -/
def float_to_byte (a : FloatVal) : Nat := (a.num / a.den) % 256

/-- Subtraction of two `UINT` values. -/
def uint_sub (a b : Nat) : Nat := (a + 2 ^ 32 - b % 2 ^ 32) % 2 ^ 32

/-- The `float` expression `((float)(extent - i) / extent) * 255`. -/
def gradient_value (extent i : Nat) : FloatVal :=
  float_mul (float_div (float_of_uint (uint_sub extent i)) (float_of_uint extent))
    (float_of_uint 255)

/-- The channel expression `static_cast<byte>(((float)(extent - i) / extent) * 255)`. -/
def gradient_channel (extent i : Nat) : Nat :=
  float_to_byte (gradient_value extent i)

/-! ## The pixel buffer -/

/-- A heap buffer of bytes together with the offsets stored to so far, oldest first. -/
structure Buffer where
  bytes : List Nat
  writes : List Nat
deriving DecidableEq

/-- Store of one byte at `offset`; there is no result outside the allocation. -/
def Buffer.store (buf : Buffer) (offset value : Nat) : Option Buffer :=
  if offset < buf.bytes.length then
    some { bytes := buf.bytes.set offset value, writes := buf.writes ++ [offset] }
  else none

/-- The byte offset `((y * width) + x) * 4` of a pixel, in `UINT` arithmetic. -/
def pixel_offset (width y x : Nat) : Nat :=
  ((((y * width) % 2 ^ 32 + x) % 2 ^ 32) * 4) % 2 ^ 32

/-- Body of the inner loop of `create_device_independent_resources`: the four stores of
one pixel. -/
def write_pixel (height width y x : Nat) (buf : Buffer) : Option Buffer := do
  let pixel_data := pixel_offset width y x
  let buf ← buf.store (pixel_data + 0) (0 % 256)
  let buf ← buf.store (pixel_data + 1) (gradient_channel height y)
  let buf ← buf.store (pixel_data + 2) (gradient_channel width x)
  buf.store (pixel_data + 3) (255 % 256)

/-- The loop `for (UINT x = 0; x < width; x++)` of one row. -/
def write_row (height width y : Nat) (buf : Buffer) : Option Buffer :=
  (List.range width).foldlM (fun b x => write_pixel height width y x b) buf

/-- The loop `for (UINT y = 0; y < height; y++)` over the rows. -/
def write_image (height width : Nat) (buf : Buffer) : Option Buffer :=
  (List.range height).foldlM (fun b y => write_row height width y b) buf

/-- The buffer `new UINT8[height * width * 4]` returns: its contents are whatever the heap
held, `junk`. -/
def new_buffer (height width : Nat) (junk : Nat → Nat) : Buffer :=
  { bytes := (List.range ((((height * width) % 2 ^ 32) * 4) % 2 ^ 32)).map junk, writes := [] }

/-! ## Initialisation -/

/-- What the system answers to the calls of `initialize`. -/
structure InitEnv where
  factory : Created
  heap_junk : Nat → Nat
  window : Option Handle

/-- Method `Application::create_device_independent_resources()`, with the buffer after the
loops returned next to the application. -/
def create_device_independent_resources (app : Application) (env : InitEnv) :
    Option (HRESULT × Application × Buffer × List Call) := do
  let hr := env.factory.hr
  let height := 400
  let width := 400
  let buf ← write_image height width (new_buffer height width env.heap_junk)
  some (hr,
        { app with direct2d_factory_ptr := env.factory.out, image_data := some buf.bytes },
        buf,
        [Call.D2D1CreateFactory])

/-- Method `Application::initialize()`; the name is spelled `initialise` here because
`initialize` is a reserved word of Lean. -/
def initialise (app : Application) (env : InitEnv) :
    Option (HRESULT × Application × List Call) := do
  let (hr, app, _, t) ← create_device_independent_resources app env
  if SUCCEEDED hr then
    let width := 640
    let height := 480
    let app := { app with window_handle := env.window }
    let hr := if app.window_handle.isSome then S_OK else E_FAIL
    if SUCCEEDED hr then
      some (hr, app,
            t ++ [Call.RegisterClassEx, Call.CreateWindow width height,
                  Call.ShowWindow app.window_handle, Call.UpdateWindow app.window_handle])
    else
      some (hr, app, t ++ [Call.RegisterClassEx, Call.CreateWindow width height])
  else
    some (hr, app, t)

/-! ## Rendering -/

/-- The loop `for (int x = 0; x < limit; x += 25)`: the values of `x` the body runs with.
There is no result when `x += 25` leaves the range of `int`. -/
def grid_loop (limit x : Int) : Option (List Int) :=
  if x < limit then
    if x + 25 ≤ INT_MAX then (grid_loop limit (x + 25)).map (fun rest => x :: rest)
    else none
  else some []
termination_by (limit - x).toNat
decreasing_by omega

/-- What the system answers to the calls of `on_render`: `width` and `height` are the size
of the render target converted to `int`. -/
structure RenderEnv where
  device : DeviceEnv
  width : Int
  height : Int
  end_draw : HRESULT
deriving DecidableEq

/-- The two grid loops of `on_render`. -/
def draw_grid (app : Application) (width height : Int) : Option (List Call) := do
  let xs ← grid_loop width 0
  let ys ← grid_loop height 0
  some (xs.map (fun x => Call.DrawLineVertical app.render_target_ptr x app.dark_gray_brush_ptr)
        ++ ys.map (fun y =>
            Call.DrawLineHorizontal app.render_target_ptr y app.dark_gray_brush_ptr))

/-- First part of `Application::on_render()`, up to the end of the `if (SUCCEEDED(hr))`
block: create the device resources and, on success, draw the frame. -/
def create_and_draw (app : Application) (env : RenderEnv) :
    Option (HRESULT × Application × List Call) := do
  let (hr, app, t) := create_device_resources app env.device
  if SUCCEEDED hr then
    let rt := app.render_target_ptr
    let grid ← draw_grid app env.width env.height
    some (env.end_draw, app,
          t ++ [Call.BeginDraw rt, Call.SetTransform rt, Call.Clear rt, Call.GetSize rt]
            ++ grid
            ++ [Call.BitmapGetSize app.image_bitmap, Call.BitmapGetSize app.image_bitmap,
                Call.DrawBitmap rt app.image_bitmap,
                Call.FillRectangle rt app.blue_brush_ptr,
                Call.EndDraw rt])
  else
    some (hr, app, t)

/-- Method `Application::on_render()`. -/
def on_render (app : Application) (env : RenderEnv) :
    Option (HRESULT × Application × List Call) := do
  let (hr, app, t) ← create_and_draw app env
  if hr = D2DERR_RECREATE_TARGET then
    let (app, released) := discard_device_resources app
    some (S_OK, app, t ++ released)
  else
    some (hr, app, t)

/-- Method `Application::on_resize(UINT width, UINT height)`. -/
def on_resize (app : Application) (width height : Nat) : Application × List Call :=
  if app.render_target_ptr.isSome then
    (app, [Call.Resize app.render_target_ptr width height])
  else (app, [])

/-! ## The window procedure -/

/-- The macro `LOWORD(l)`: `(WORD)(((DWORD_PTR)(l)) & 0xffff)`. -/
def LOWORD (l : Int) : Nat := (l % 2 ^ 64).toNat % 2 ^ 16

/-- The macro `HIWORD(l)`: `(WORD)((((DWORD_PTR)(l)) >> 16) & 0xffff)`. -/
def HIWORD (l : Int) : Nat := ((l % 2 ^ 64).toNat / 2 ^ 16) % 2 ^ 16

/-- The window and the application object its user data may point to. `user_data` is the
`GWLP_USERDATA` slot, `0` for a null pointer; a non-null value points to `app`. -/
structure Window where
  user_data : Nat
  app : Application
deriving DecidableEq

/-- What the system answers to the calls of `window_procedure`: `create_params` is the
`lpCreateParams` member of the structure `lparam` points to on `WM_CREATE`. -/
structure ProcEnv where
  create_params : Nat
  render : RenderEnv
  def_window_proc : Int
deriving DecidableEq

/-- The static method `Application::window_procedure(hwnd, message, wparam, lparam)`. -/
def window_procedure (w : Window) (hwnd : Handle) (message wparam : Nat) (lparam : Int)
    (env : ProcEnv) : Option (Int × Window × List Call) :=
  if message = WM_CREATE then
    some (1, { w with user_data := env.create_params },
          [Call.SetWindowLongPtr hwnd env.create_params])
  else
    let app_ptr := w.user_data
    let t := [Call.GetWindowLongPtr hwnd]
    let handled : Option (Option (Int × Window × List Call)) :=
      if app_ptr ≠ 0 then
        if message = WM_SIZE then
          let r := on_resize w.app (LOWORD lparam) (HIWORD lparam)
          some (some (0, { w with app := r.1 }, t ++ r.2))
        else if message = WM_DISPLAYCHANGE then
          some (some (0, w, t ++ [Call.InvalidateRect hwnd]))
        else if message = WM_PAINT then
          some ((on_render w.app env.render).map (fun r =>
            (0, { w with app := r.2.1 }, t ++ r.2.2 ++ [Call.ValidateRect hwnd])))
        else if message = WM_DESTROY then
          some (some (1, w, t ++ [Call.PostQuitMessage 0]))
        else none
      else none
    match handled with
    | some result => result
    | none =>
      some (env.def_window_proc, w, t ++ [Call.DefWindowProc hwnd message wparam lparam])

/-- The calls that create a device resource. -/
def Call.is_creation : Call → Bool
  | Call.CreateHwndRenderTarget _ _ _ _ => true
  | Call.CreateSolidColorBrush _ _ => true
  | Call.CreateBitmap _ _ _ _ => true
  | _ => false

/-- The states a successful `initialize` leaves a newly constructed object in. -/
def Initialised (app : Application) : Prop :=
  ∃ env hr t, initialise Application.ctor env = some (hr, app, t) ∧ SUCCEEDED hr = true

/-- The states the application object can be in between two messages: the state a
successful `initialize` leaves a newly constructed object in, and every state `on_render`
or `on_resize` leads to from there. -/
inductive Reachable : Application → Prop where
  | init (app : Application) : Initialised app → Reachable app
  | render (app : Application) (env : RenderEnv) (hr : HRESULT) (app1 : Application)
      (t : List Call) :
      Reachable app → on_render app env = some (hr, app1, t) → Reachable app1
  | resize (app : Application) (width height : Nat) :
      Reachable app → Reachable (on_resize app width height).1

/-- The handles of a list of nullable pointers that are not null, in order. -/
def non_null (ptrs : List (Option Handle)) : List Handle := ptrs.reduceOption

/-- An application object in which all five handles are set, used as a concrete input. -/
def sample_app : Application :=
  { window_handle := some 1
    direct2d_factory_ptr := some 10
    render_target_ptr := some 11
    dark_gray_brush_ptr := some 12
    blue_brush_ptr := some 13
    image_data := none
    image_bitmap := some 14 }

/-- Answers in which every creation call succeeds, used as a concrete input. -/
def sample_device_env : DeviceEnv :=
  { client_width := 640
    client_height := 480
    render_target := ⟨S_OK, 21⟩
    dark_gray_brush := ⟨S_OK, 22⟩
    blue_brush := ⟨S_OK, 23⟩
    bitmap := ⟨S_OK, 24⟩ }

/-- Answers of a frame in which the device resources are created and `EndDraw` reports
`D2DERR_RECREATE_TARGET`, on a render target 50 wide and 25 high. -/
def sample_lost_frame : RenderEnv :=
  { device := sample_device_env
    width := 50
    height := 25
    end_draw := D2DERR_RECREATE_TARGET }

/-- The calls the frame of `sample_lost_frame` makes on `sample_app` up to `EndDraw`. -/
def sample_lost_trace : List Call :=
  [Call.BeginDraw (some 11), Call.SetTransform (some 11), Call.Clear (some 11),
   Call.GetSize (some 11),
   Call.DrawLineVertical (some 11) 0 (some 12), Call.DrawLineVertical (some 11) 25 (some 12),
   Call.DrawLineHorizontal (some 11) 0 (some 12),
   Call.BitmapGetSize (some 14), Call.BitmapGetSize (some 14),
   Call.DrawBitmap (some 11) (some 14), Call.FillRectangle (some 11) (some 13),
   Call.EndDraw (some 11)]

/-- The `DrawLine` calls of the two grid loops. -/
def Call.is_grid_line : Call → Bool
  | Call.DrawLineVertical _ _ _ => true
  | Call.DrawLineHorizontal _ _ _ => true
  | _ => false

/-- The calls to `DefWindowProc`. -/
def Call.is_def_window_proc : Call → Bool
  | Call.DefWindowProc _ _ _ _ => true
  | _ => false

/-- A window whose user data points to `sample_app`, used as a concrete input. -/
def sample_window : Window := { user_data := 1, app := sample_app }

/-- Answers to the calls of `window_procedure`, used as a concrete input. -/
def sample_proc_env : ProcEnv :=
  { create_params := 1, render := sample_lost_frame, def_window_proc := 7 }

/-- The byte the loops of `create_device_independent_resources` store at offset `i`: the
four channels of pixel `i / 4`, whose row is `i / 4 / width` and column `i / 4 % width`. -/
def pixel_byte (height width i : Nat) : Nat :=
  if i % 4 = 0 then 0
  else if i % 4 = 1 then gradient_channel height (i / 4 / width)
  else if i % 4 = 2 then gradient_channel width (i / 4 % width)
  else 255

/-- The state of the buffer once the first `n` pixels, in row order, have been written:
the `4 * n` offsets below were stored to, in increasing order, and hold the pixel bytes;
the rest of the allocation is as it was. -/
def Filled (height width : Nat) (junk : Nat → Nat) (n : Nat) (buf : Buffer) : Prop :=
  buf.bytes.length = height * width * 4 ∧
  buf.writes = List.range (4 * n) ∧
  ∀ i, i < height * width * 4 →
    buf.bytes[i]? = some (if i < 4 * n then pixel_byte height width i else junk i)

/-- Answers to the calls of `initialize` in which the factory and the window are created,
used as a concrete input. -/
def sample_init_env : InitEnv :=
  { factory := ⟨S_OK, 10⟩, heap_junk := fun _ => 205, window := some 1 }

/-- Answers of a frame in which the render target is created and the creation of the
dark-gray brush fails with `E_FAIL`, used as a concrete input. -/
def sample_brush_failure : RenderEnv :=
  { device := { sample_device_env with dark_gray_brush := ⟨E_FAIL, 0⟩ }
    width := 50
    height := 25
    end_draw := S_OK }

/-- Answers of a frame in which every call succeeds, on a render target 50 wide and 25
high, used as a concrete input. -/
def sample_frame : RenderEnv :=
  { device := sample_device_env
    width := 50
    height := 25
    end_draw := S_OK }

/-- Number of multiples of 25 in the interval from 0 up to, not including, `d`. -/
def grid_count (d : Int) : Nat := (d.toNat + 24) / 25

/-! ## The grid loop -/

theorem grid_loop_steps (limit : Int) (hlimit : limit ≤ 2 ^ 31 - 26) :
    ∀ (n : Nat) (x : Int), 0 ≤ x → (limit - x).toNat ≤ 25 * n →
      grid_loop limit x =
        some ((List.range (grid_count (limit - x))).map (fun (k : Nat) => x + 25 * (k : Int))) := by
  intro n
  induction n with
  | zero =>
    intro x hx hn
    rw [grid_loop]
    have h1 : ¬ x < limit := by omega
    have h2 : grid_count (limit - x) = 0 := by unfold grid_count; omega
    simp [h1, h2]
  | succ n ih =>
    intro x hx hn
    rw [grid_loop]
    by_cases h1 : x < limit
    · have h2 : x + 25 ≤ INT_MAX := by unfold INT_MAX; omega
      have h3 : grid_count (limit - x) = grid_count (limit - (x + 25)) + 1 := by
        unfold grid_count; omega
      rw [if_pos h1, if_pos h2, ih (x + 25) (by omega) (by omega), h3, List.range_succ_eq_map]
      simp only [Option.map_some', List.map_cons, List.map_map, Nat.cast_zero, mul_zero,
        add_zero]
      congr 2
      apply List.map_congr_left
      intro k _
      simp only [Function.comp, Nat.cast_succ]
      ring
    · have h2 : grid_count (limit - x) = 0 := by unfold grid_count; omega
      simp [h1, h2]

theorem grid_loop_from_zero (limit : Int) (hlimit : limit ≤ 2 ^ 31 - 26) :
    grid_loop limit 0 =
      some ((List.range (grid_count limit)).map (fun (k : Nat) => 25 * (k : Int))) := by
  have h := grid_loop_steps limit hlimit limit.toNat 0 le_rfl (by omega)
  simpa using h

theorem grid_count_eq_ceil (d : Int) (hd : 0 ≤ d) :
    (grid_count d : Int) = Int.ceil ((d : ℚ) / 25) := by
  symm
  rw [Int.ceil_eq_iff]
  have h1 : 25 * (grid_count d : Int) ≤ d + 24 := by unfold grid_count; omega
  have h2 : d + 24 < 25 * (grid_count d : Int) + 25 := by unfold grid_count; omega
  have h3 : d ≤ 25 * (grid_count d : Int) := by omega
  have h1q : (25 : ℚ) * ((grid_count d : Int) : ℚ) ≤ (d : ℚ) + 24 := by exact_mod_cast h1
  have h3q : (d : ℚ) ≤ 25 * ((grid_count d : Int) : ℚ) := by exact_mod_cast h3
  constructor
  · rw [lt_div_iff₀ (by norm_num)]; linarith
  · rw [div_le_iff₀ (by norm_num)]; linarith

theorem sample_lost_frame_step :
    create_and_draw sample_app sample_lost_frame =
      some (D2DERR_RECREATE_TARGET, sample_app, sample_lost_trace) := by
  have hx : grid_loop 50 0 = some [0, 25] := by
    rw [grid_loop_from_zero 50 (by norm_num)]; decide
  have hy : grid_loop 25 0 = some [0] := by
    rw [grid_loop_from_zero 25 (by norm_num)]; decide
  simp [create_and_draw, create_device_resources, sample_app, sample_lost_frame, draw_grid,
    hx, hy, sample_lost_trace, SUCCEEDED, S_OK]

theorem create_device_resources_calls (app : Application) (env : DeviceEnv) :
    ∀ c ∈ (create_device_resources app env).2.2,
      c = Call.GetClientRect app.window_handle ∨ Call.is_creation c = true := by
  cases h0 : app.render_target_ptr <;>
  cases h1 : SUCCEEDED env.render_target.hr <;>
  cases h2 : SUCCEEDED env.dark_gray_brush.hr <;>
  cases h3 : SUCCEEDED env.blue_brush.hr <;>
  cases h4 : SUCCEEDED env.bitmap.hr <;>
  simp [create_device_resources, h0, h1, h2, h3, h4, Call.is_creation]

theorem create_device_resources_no_grid_line (app : Application) (env : DeviceEnv) :
    (create_device_resources app env).2.2.filter Call.is_grid_line = [] := by
  rw [List.filter_eq_nil_iff]
  intro c hc
  rcases create_device_resources_calls app env c hc with rfl | h
  · simp [Call.is_grid_line]
  · cases c <;> simp_all [Call.is_grid_line, Call.is_creation]

theorem grid_count_toNat_ceil (d : Int) (hd : 0 ≤ d) :
    (Int.ceil ((d : ℚ) / 25)).toNat = grid_count d := by
  rw [← grid_count_eq_ceil d hd, Int.toNat_ofNat]

theorem grid_multiple_mem (d : Int) (hd : 0 ≤ d) (x : Int) :
    (∃ k : Nat, k < grid_count d ∧ 25 * (k : Int) = x) ↔ (0 ≤ x ∧ x < d ∧ x % 25 = 0) := by
  unfold grid_count
  constructor
  · rintro ⟨k, hk, rfl⟩
    omega
  · rintro ⟨h0, h1, h2⟩
    exact ⟨(x / 25).toNat, by omega, by omega⟩

theorem discard_device_resources_no_def_window_proc (app : Application) :
    (discard_device_resources app).2.filter Call.is_def_window_proc = [] := by
  obtain ⟨w, f, r, g, b, d, m⟩ := app
  cases r <;> cases g <;> cases b <;> cases m <;>
    simp [discard_device_resources, SafeRelease, Call.is_def_window_proc]

theorem create_device_resources_no_def_window_proc (app : Application) (env : DeviceEnv) :
    (create_device_resources app env).2.2.filter Call.is_def_window_proc = [] := by
  rw [List.filter_eq_nil_iff]
  intro c hc
  rcases create_device_resources_calls app env c hc with rfl | h
  · simp [Call.is_def_window_proc]
  · cases c <;> simp_all [Call.is_def_window_proc, Call.is_creation]

theorem draw_grid_no_def_window_proc (app : Application) (w h : Int) (g : List Call)
    (hg : draw_grid app w h = some g) : g.filter Call.is_def_window_proc = [] := by
  unfold draw_grid at hg
  cases hx : grid_loop w 0 with
  | none => simp [hx] at hg
  | some xs =>
    cases hy : grid_loop h 0 with
    | none => simp [hx, hy] at hg
    | some ys =>
      simp only [hx, hy, Option.bind_eq_bind, Option.some_bind, Option.some.injEq] at hg
      subst hg
      rw [List.filter_eq_nil_iff]
      intro c hc
      rw [List.mem_append, List.mem_map, List.mem_map] at hc
      rcases hc with ⟨k, _, rfl⟩ | ⟨k, _, rfl⟩ <;> simp [Call.is_def_window_proc]

theorem create_and_draw_no_def_window_proc (app : Application) (env : RenderEnv)
    (r : HRESULT × Application × List Call) (h : create_and_draw app env = some r) :
    r.2.2.filter Call.is_def_window_proc = [] := by
  unfold create_and_draw at h
  cases hok : SUCCEEDED (create_device_resources app env.device).1 with
  | false =>
    simp [hok] at h
    subst h
    exact create_device_resources_no_def_window_proc app env.device
  | true =>
    cases hg : draw_grid (create_device_resources app env.device).2.1 env.width env.height with
    | none => simp [hok, hg] at h
    | some g =>
      simp [hok, hg] at h
      subst h
      simp [List.filter_append, create_device_resources_no_def_window_proc,
        draw_grid_no_def_window_proc _ _ _ _ hg, Call.is_def_window_proc]

theorem on_render_no_def_window_proc (app : Application) (env : RenderEnv)
    (r : HRESULT × Application × List Call) (h : on_render app env = some r) :
    r.2.2.filter Call.is_def_window_proc = [] := by
  unfold on_render at h
  cases hc : create_and_draw app env with
  | none => simp [hc] at h
  | some p =>
    have hp := create_and_draw_no_def_window_proc app env p hc
    obtain ⟨hr, app1, t⟩ := p
    by_cases hl : hr = D2DERR_RECREATE_TARGET
    · simp [hc, hl] at h
      subst h
      have hp1 : t.filter Call.is_def_window_proc = [] := hp
      rw [List.filter_append, hp1, discard_device_resources_no_def_window_proc]
      rfl
    · simp [hc, hl] at h
      subst h
      exact hp

theorem on_render_returns (app : Application) (env : RenderEnv)
    (hw : env.width ≤ 2 ^ 31 - 26) (hh : env.height ≤ 2 ^ 31 - 26) :
    ∃ r, on_render app env = some r := by
  have hx := grid_loop_from_zero env.width hw
  have hy := grid_loop_from_zero env.height hh
  have hcd : ∃ p, create_and_draw app env = some p := by
    cases hok : SUCCEEDED (create_device_resources app env.device).1 <;>
      simp [create_and_draw, draw_grid, hx, hy, hok]
  obtain ⟨⟨hr, app1, t⟩, hp⟩ := hcd
  by_cases hl : hr = D2DERR_RECREATE_TARGET <;> simp [on_render, hp, hl]

/-! ## Release of the handles (C3) -/

/-- C3, as stated, fails for the device-loss path: on an application object holding five
handles, `discard_device_resources` leaves the factory pointer set and makes no `Release`
call on the factory. -/
theorem C3_discard_keeps_factory :
    (discard_device_resources sample_app).1.direct2d_factory_ptr = some 10 ∧
    Call.Release 10 ∉ (discard_device_resources sample_app).2 := by
  decide

/-- C3, amended: the destructor releases, once each and in the order factory, render
target, dark-gray brush, blue brush, bitmap, exactly the handles that were non-null, and
leaves all five null; `discard_device_resources` does the same for the four device
resources (render target, the two brushes, the bitmap) and neither releases nor changes
the factory pointer, the window handle or the image data. -/
theorem C3_release_together (app : Application) :
    ((Application.dtor app).2 =
        (non_null [app.direct2d_factory_ptr, app.render_target_ptr, app.dark_gray_brush_ptr,
          app.blue_brush_ptr, app.image_bitmap]).map Call.Release ∧
      (Application.dtor app).1.direct2d_factory_ptr = none ∧
      (Application.dtor app).1.render_target_ptr = none ∧
      (Application.dtor app).1.dark_gray_brush_ptr = none ∧
      (Application.dtor app).1.blue_brush_ptr = none ∧
      (Application.dtor app).1.image_bitmap = none) ∧
    ((discard_device_resources app).2 =
        (non_null [app.render_target_ptr, app.dark_gray_brush_ptr, app.blue_brush_ptr,
          app.image_bitmap]).map Call.Release ∧
      (discard_device_resources app).1 =
        { app with
            render_target_ptr := none
            dark_gray_brush_ptr := none
            blue_brush_ptr := none
            image_bitmap := none }) := by
  obtain ⟨w, f, r, g, b, d, m⟩ := app
  cases f <;> cases r <;> cases g <;> cases b <;> cases m <;>
    simp [Application.dtor, discard_device_resources, SafeRelease, non_null,
      List.reduceOption_cons_of_some, List.reduceOption_cons_of_none]

/-! ## Creation of the device resources (C4, C6) -/

/-- C4: when the render target pointer is null at entry, `create_device_resources` makes
the creation calls in the order render target, dark-gray brush, blue brush, bitmap, stops
at the first that fails and returns its code; it returns a success code exactly when all
four succeeded, and then the four handles are the four new objects. -/
theorem C4_create_device_resources_propagates (app : Application) (env : DeviceEnv)
    (hnull : app.render_target_ptr = none) :
    let r := create_device_resources app env
    let c1 := Call.CreateHwndRenderTarget app.direct2d_factory_ptr app.window_handle
      env.client_width env.client_height
    let c2 := Call.CreateSolidColorBrush (some env.render_target.object) Color.dark_gray
    let c3 := Call.CreateSolidColorBrush (some env.render_target.object) Color.deep_sky_blue
    let c4 := Call.CreateBitmap (some env.render_target.object) 400 400 1600
    (SUCCEEDED r.1 = true ↔
      (SUCCEEDED env.render_target.hr = true ∧ SUCCEEDED env.dark_gray_brush.hr = true ∧
        SUCCEEDED env.blue_brush.hr = true ∧ SUCCEEDED env.bitmap.hr = true)) ∧
    (SUCCEEDED env.render_target.hr = false →
      r.1 = env.render_target.hr ∧ r.2.2.filter Call.is_creation = [c1]) ∧
    (SUCCEEDED env.render_target.hr = true → SUCCEEDED env.dark_gray_brush.hr = false →
      r.1 = env.dark_gray_brush.hr ∧ r.2.2.filter Call.is_creation = [c1, c2]) ∧
    (SUCCEEDED env.render_target.hr = true → SUCCEEDED env.dark_gray_brush.hr = true →
      SUCCEEDED env.blue_brush.hr = false →
      r.1 = env.blue_brush.hr ∧ r.2.2.filter Call.is_creation = [c1, c2, c3]) ∧
    (SUCCEEDED env.render_target.hr = true → SUCCEEDED env.dark_gray_brush.hr = true →
      SUCCEEDED env.blue_brush.hr = true →
      r.1 = env.bitmap.hr ∧ r.2.2.filter Call.is_creation = [c1, c2, c3, c4]) ∧
    (SUCCEEDED r.1 = true →
      r.2.1.render_target_ptr = some env.render_target.object ∧
      r.2.1.dark_gray_brush_ptr = some env.dark_gray_brush.object ∧
      r.2.1.blue_brush_ptr = some env.blue_brush.object ∧
      r.2.1.image_bitmap = some env.bitmap.object) := by
  cases h1 : SUCCEEDED env.render_target.hr <;>
  cases h2 : SUCCEEDED env.dark_gray_brush.hr <;>
  cases h3 : SUCCEEDED env.blue_brush.hr <;>
  cases h4 : SUCCEEDED env.bitmap.hr <;>
  simp [create_device_resources, hnull, h1, h2, h3, h4, Created.out, Call.is_creation]

/-- C4 at a concrete input: on a new object, with a render target that is created and a
dark-gray brush whose creation fails with `E_FAIL`, the call returns `E_FAIL` after exactly
two creation calls. -/
theorem C4_create_device_resources_propagates_witness :
    (create_device_resources Application.ctor
        { sample_device_env with dark_gray_brush := ⟨E_FAIL, 0⟩ }).1 = E_FAIL ∧
    (create_device_resources Application.ctor
        { sample_device_env with dark_gray_brush := ⟨E_FAIL, 0⟩ }).2.2.filter Call.is_creation =
      [Call.CreateHwndRenderTarget none none 640 480,
       Call.CreateSolidColorBrush (some 21) Color.dark_gray] :=
  (C4_create_device_resources_propagates Application.ctor
    { sample_device_env with dark_gray_brush := ⟨E_FAIL, 0⟩ } rfl).2.2.1 (by decide) (by decide)

/-- C6: when the device resources exist (the render target pointer is non-null),
`create_device_resources` returns `S_OK`, makes no call at all and leaves every field of
the application object as it was; a second call in a row, whatever the system would
answer, again leaves that same state. -/
theorem C6_create_device_resources_idempotent (app : Application) (env env2 : DeviceEnv)
    (hset : app.render_target_ptr ≠ none) :
    create_device_resources app env = (S_OK, app, []) ∧
    (create_device_resources app env).2.2.filter Call.is_creation = [] ∧
    (create_device_resources (create_device_resources app env).2.1 env2).2.1 =
      (create_device_resources app env).2.1 := by
  have key : ∀ e : DeviceEnv, create_device_resources app e = (S_OK, app, []) := by
    intro e
    cases hr : app.render_target_ptr with
    | none => exact absurd hr hset
    | some v => simp [create_device_resources, hr]
  simp [key]

/-- C6 at a concrete input: with all five handles set, the call answers `S_OK` and changes
nothing, although every creation call would have succeeded. -/
theorem C6_create_device_resources_idempotent_witness :
    create_device_resources sample_app sample_device_env = (S_OK, sample_app, []) :=
  (C6_create_device_resources_idempotent sample_app sample_device_env sample_device_env
    (by decide)).1

/-! ## Device loss (C2) -/

/-- C2: whenever the first part of `on_render` (creation of the device resources and, on
success, the drawing up to `EndDraw`) ends with the code `hr` in state `app1`:
if `hr` is `D2DERR_RECREATE_TARGET`, `on_render` returns `S_OK` after
`discard_device_resources`, the four device handles are null, and a following
`create_device_resources` calls `CreateHwndRenderTarget` again and, when its four creation
calls succeed, sets the four handles to the new objects; for every other code `on_render`
returns `hr` and the state `app1` unchanged, with no further call. -/
theorem C2_device_loss_recovery (app : Application) (env : RenderEnv) (hr : HRESULT)
    (app1 : Application) (t : List Call)
    (hstep : create_and_draw app env = some (hr, app1, t)) :
    (hr = D2DERR_RECREATE_TARGET →
      on_render app env =
        some (S_OK, (discard_device_resources app1).1, t ++ (discard_device_resources app1).2) ∧
      (discard_device_resources app1).1.render_target_ptr = none ∧
      (discard_device_resources app1).1.dark_gray_brush_ptr = none ∧
      (discard_device_resources app1).1.blue_brush_ptr = none ∧
      (discard_device_resources app1).1.image_bitmap = none ∧
      ∀ env2 : DeviceEnv,
        Call.CreateHwndRenderTarget app1.direct2d_factory_ptr app1.window_handle
            env2.client_width env2.client_height ∈
          (create_device_resources (discard_device_resources app1).1 env2).2.2 ∧
        (SUCCEEDED env2.render_target.hr = true → SUCCEEDED env2.dark_gray_brush.hr = true →
          SUCCEEDED env2.blue_brush.hr = true → SUCCEEDED env2.bitmap.hr = true →
          (create_device_resources (discard_device_resources app1).1 env2).2.1 =
            { app1 with
                render_target_ptr := some env2.render_target.object
                dark_gray_brush_ptr := some env2.dark_gray_brush.object
                blue_brush_ptr := some env2.blue_brush.object
                image_bitmap := some env2.bitmap.object })) ∧
    (hr ≠ D2DERR_RECREATE_TARGET → on_render app env = some (hr, app1, t)) := by
  refine ⟨?_, ?_⟩
  · intro hlost
    subst hlost
    refine ⟨by simp [on_render, hstep], ?_, ?_, ?_, ?_, ?_⟩
    · cases h : app1.render_target_ptr <;> simp [discard_device_resources, SafeRelease, h]
    · cases h : app1.dark_gray_brush_ptr <;> simp [discard_device_resources, SafeRelease, h]
    · cases h : app1.blue_brush_ptr <;> simp [discard_device_resources, SafeRelease, h]
    · cases h : app1.image_bitmap <;> simp [discard_device_resources, SafeRelease, h]
    · intro env2
      have hd : (discard_device_resources app1).1 =
          { app1 with
              render_target_ptr := none
              dark_gray_brush_ptr := none
              blue_brush_ptr := none
              image_bitmap := none } := by
        obtain ⟨w, f, r, g, b, d, m⟩ := app1
        cases r <;> cases g <;> cases b <;> cases m <;>
          simp [discard_device_resources, SafeRelease]
      rw [hd]
      refine ⟨?_, ?_⟩
      · cases h1 : SUCCEEDED env2.render_target.hr <;>
        cases h2 : SUCCEEDED env2.dark_gray_brush.hr <;>
        cases h3 : SUCCEEDED env2.blue_brush.hr <;>
        cases h4 : SUCCEEDED env2.bitmap.hr <;>
        simp [create_device_resources, h1, h2, h3, h4]
      · intro h1 h2 h3 h4
        simp [create_device_resources, h1, h2, h3, h4, Created.out]
  · intro hother
    simp [on_render, hstep, hother]

/-- C2 at a concrete input: on an object with all handles set, a frame drawn on a 50 by 25
target whose `EndDraw` reports `D2DERR_RECREATE_TARGET` ends with `S_OK`, the four device
handles null and the four objects released. -/
theorem C2_device_loss_recovery_witness :
    create_and_draw sample_app sample_lost_frame =
      some (D2DERR_RECREATE_TARGET, sample_app, sample_lost_trace) ∧
    on_render sample_app sample_lost_frame =
      some (S_OK,
        { sample_app with
            render_target_ptr := none
            dark_gray_brush_ptr := none
            blue_brush_ptr := none
            image_bitmap := none },
        sample_lost_trace ++
          [Call.Release 11, Call.Release 12, Call.Release 13, Call.Release 14]) :=
  ⟨sample_lost_frame_step,
   ((C2_device_loss_recovery sample_app sample_lost_frame D2DERR_RECREATE_TARGET sample_app
      sample_lost_trace sample_lost_frame_step).1 rfl).1⟩

/-! ## The background grid (C10) -/

/-- C10: for a render target whose truncated width `w` and height `h` lie between 0 and
`2 ^ 31 - 26`, the two grid loops of `on_render` end, and the lines they draw are, in order,
one vertical line at `25 * k` for each `k` below `ceil (w / 25)` and then one horizontal
line at `25 * k` for each `k` below `ceil (h / 25)`, all on the render target with the
dark-gray brush; no line is drawn twice, a vertical line is drawn at `x` exactly when `x`
is a multiple of 25 with `0 <= x < w` (likewise horizontally), there is none when the
dimension is 0, and these are all the `DrawLine` calls of a frame whose device resources
were created. -/
theorem C10_grid_lines (app : Application) (env : RenderEnv)
    (hw : 0 ≤ env.width ∧ env.width ≤ 2 ^ 31 - 26)
    (hh : 0 ≤ env.height ∧ env.height ≤ 2 ^ 31 - 26) :
    let app1 := (create_device_resources app env.device).2.1
    let rt := app1.render_target_ptr
    let brush := app1.dark_gray_brush_ptr
    let grid :=
      (List.range (Int.ceil ((env.width : ℚ) / 25)).toNat).map
          (fun (k : Nat) => Call.DrawLineVertical rt (25 * (k : Int)) brush) ++
        (List.range (Int.ceil ((env.height : ℚ) / 25)).toNat).map
          (fun (k : Nat) => Call.DrawLineHorizontal rt (25 * (k : Int)) brush)
    draw_grid app1 env.width env.height = some grid ∧
    (∃ r, on_render app env = some r) ∧
    (SUCCEEDED (create_device_resources app env.device).1 = true →
      ∃ t, create_and_draw app env = some (env.end_draw, app1, t) ∧
        t.filter Call.is_grid_line = grid) ∧
    grid.Nodup ∧
    (∀ x : Int, Call.DrawLineVertical rt x brush ∈ grid ↔
      (0 ≤ x ∧ x < env.width ∧ x % 25 = 0)) ∧
    (∀ y : Int, Call.DrawLineHorizontal rt y brush ∈ grid ↔
      (0 ≤ y ∧ y < env.height ∧ y % 25 = 0)) ∧
    (env.width = 0 → ∀ target x b, Call.DrawLineVertical target x b ∉ grid) ∧
    (env.height = 0 → ∀ target y b, Call.DrawLineHorizontal target y b ∉ grid) := by
  intro app1 rt brush grid
  have hx := grid_loop_from_zero env.width hw.2
  have hy := grid_loop_from_zero env.height hh.2
  have hnx := grid_count_toNat_ceil env.width hw.1
  have hny := grid_count_toNat_ceil env.height hh.1
  have hg : grid =
      (List.range (grid_count env.width)).map
          (fun (k : Nat) => Call.DrawLineVertical rt (25 * (k : Int)) brush) ++
        (List.range (grid_count env.height)).map
          (fun (k : Nat) => Call.DrawLineHorizontal rt (25 * (k : Int)) brush) := by
    simp only [grid, hnx, hny]
  have hgrid : draw_grid app1 env.width env.height = some grid := by
    rw [hg]
    simp only [draw_grid, hx, hy, rt, brush]
    simp only [Option.bind_eq_bind, Option.some_bind, List.map_map]
    rfl
  have hfilter : grid.filter Call.is_grid_line = grid := by
    rw [List.filter_eq_self, hg]
    intro c hc
    rw [List.mem_append, List.mem_map, List.mem_map] at hc
    rcases hc with ⟨k, _, rfl⟩ | ⟨k, _, rfl⟩ <;> rfl
  have hstep : SUCCEEDED (create_device_resources app env.device).1 = true →
      ∃ t, create_and_draw app env = some (env.end_draw, app1, t) ∧
        t.filter Call.is_grid_line = grid := by
    intro hok
    refine ⟨_, by simp only [create_and_draw, hok, if_true, hgrid, app1]; rfl, ?_⟩
    simp [List.filter_append, hfilter, Call.is_grid_line, create_device_resources_no_grid_line]
  refine ⟨hgrid, ?_, hstep, ?_, ?_, ?_, ?_, ?_⟩
  · cases hok : SUCCEEDED (create_device_resources app env.device).1 with
    | true =>
      obtain ⟨t, ht, _⟩ := hstep hok
      by_cases hl : env.end_draw = D2DERR_RECREATE_TARGET <;> simp [on_render, ht, hl]
    | false =>
      have hc : create_and_draw app env = some (create_device_resources app env.device) := by
        simp [create_and_draw, hok]
      by_cases hl : (create_device_resources app env.device).1 = D2DERR_RECREATE_TARGET <;>
        simp [on_render, hc, hl]
  · rw [hg, List.nodup_append]
    refine ⟨(List.nodup_range _).map ?_, (List.nodup_range _).map ?_, ?_⟩
    · intro a b hab
      simp only [Call.DrawLineVertical.injEq] at hab
      omega
    · intro a b hab
      simp only [Call.DrawLineHorizontal.injEq] at hab
      omega
    · intro c hc1 hc2
      rw [List.mem_map] at hc1 hc2
      obtain ⟨k, _, rfl⟩ := hc1
      obtain ⟨j, _, hj⟩ := hc2
      cases hj
  · intro x
    rw [← grid_multiple_mem env.width hw.1 x, hg]
    simp [List.mem_append, List.mem_map, List.mem_range]
  · intro y
    rw [← grid_multiple_mem env.height hh.1 y, hg]
    simp [List.mem_append, List.mem_map, List.mem_range]
  · intro h0 target x b
    rw [hg, h0]
    simp [grid_count]
  · intro h0 target y b
    rw [hg, h0]
    simp [grid_count]

/-- C10 at a concrete input: on a render target 50 wide and 25 high the loops draw the
vertical lines at 0 and 25 and the horizontal line at 0. -/
theorem C10_grid_lines_witness :
    (0 ≤ sample_lost_frame.width ∧ sample_lost_frame.width ≤ 2 ^ 31 - 26) ∧
    (0 ≤ sample_lost_frame.height ∧ sample_lost_frame.height ≤ 2 ^ 31 - 26) ∧
    draw_grid sample_app 50 25 =
      some [Call.DrawLineVertical (some 11) 0 (some 12),
            Call.DrawLineVertical (some 11) 25 (some 12),
            Call.DrawLineHorizontal (some 11) 0 (some 12)] := by
  have h := (C10_grid_lines sample_app sample_lost_frame (by decide) (by decide)).1
  have e1 : (Int.ceil ((sample_lost_frame.width : ℚ) / 25)).toNat = 2 := by
    rw [grid_count_toNat_ceil _ (by decide)]; rfl
  have e2 : (Int.ceil ((sample_lost_frame.height : ℚ) / 25)).toNat = 1 := by
    rw [grid_count_toNat_ceil _ (by decide)]; rfl
  rw [e1, e2] at h
  exact ⟨by decide, by decide, h⟩

/-! ## Message dispatch (C9) -/

/-- C9: the dispatch of `window_procedure`, for every window, message and parameters.
`WM_CREATE` stores the pointer of the create parameters in the user data and returns 1.
Otherwise, with a non-null stored pointer, `WM_SIZE` calls `on_resize` with
`lparam mod 2 ^ 16` and `(lparam div 2 ^ 16) mod 2 ^ 16` and returns 0, `WM_DISPLAYCHANGE`
invalidates the window and returns 0, `WM_PAINT` runs `on_render` once, then validates the
window and returns 0 whatever code `on_render` gave (and `on_render` does return for a
target size up to `2 ^ 31 - 26`), `WM_DESTROY` posts the quit message and returns 1.  In
every other case except `WM_CREATE` the result is that of the one `DefWindowProc` call,
and a `DefWindowProc` call is made in exactly those cases. -/
theorem C9_window_procedure_dispatch (w : Window) (hwnd : Handle) (message wparam : Nat)
    (lparam : Int) (env : ProcEnv) :
    let r := window_procedure w hwnd message wparam lparam env
    let get := Call.GetWindowLongPtr hwnd
    let unhandled := message ≠ WM_CREATE ∧
      (w.user_data = 0 ∨
        (message ≠ WM_SIZE ∧ message ≠ WM_DISPLAYCHANGE ∧ message ≠ WM_PAINT ∧
          message ≠ WM_DESTROY))
    (message = WM_CREATE →
      r = some (1, { w with user_data := env.create_params },
        [Call.SetWindowLongPtr hwnd env.create_params])) ∧
    (w.user_data ≠ 0 → message = WM_SIZE →
      r = some (0,
        { w with app :=
            (on_resize w.app (lparam % 2 ^ 16).toNat ((lparam / 2 ^ 16) % 2 ^ 16).toNat).1 },
        get :: (on_resize w.app (lparam % 2 ^ 16).toNat
          ((lparam / 2 ^ 16) % 2 ^ 16).toNat).2)) ∧
    (w.user_data ≠ 0 → message = WM_DISPLAYCHANGE →
      r = some (0, w, [get, Call.InvalidateRect hwnd])) ∧
    (w.user_data ≠ 0 → message = WM_PAINT →
      r = (on_render w.app env.render).map (fun p =>
            (0, { w with app := p.2.1 }, get :: (p.2.2 ++ [Call.ValidateRect hwnd]))) ∧
      (env.render.width ≤ 2 ^ 31 - 26 → env.render.height ≤ 2 ^ 31 - 26 →
        ∃ p, on_render w.app env.render = some p)) ∧
    (w.user_data ≠ 0 → message = WM_DESTROY →
      r = some (1, w, [get, Call.PostQuitMessage 0])) ∧
    (unhandled →
      r = some (env.def_window_proc, w,
        [get, Call.DefWindowProc hwnd message wparam lparam])) ∧
    (∀ p, r = some p → (p.2.2.filter Call.is_def_window_proc ≠ [] ↔ unhandled)) := by
  intro r get unhandled
  have hlo : LOWORD lparam = (lparam % 2 ^ 16).toNat := by
    unfold LOWORD; omega
  have hhi : HIWORD lparam = ((lparam / 2 ^ 16) % 2 ^ 16).toNat := by
    unfold HIWORD; omega
  have hcreate : message = WM_CREATE →
      r = some (1, { w with user_data := env.create_params },
        [Call.SetWindowLongPtr hwnd env.create_params]) := by
    intro hm
    simp [r, window_procedure, hm]
  have hsize : w.user_data ≠ 0 → message = WM_SIZE →
      r = some (0,
        { w with app :=
            (on_resize w.app (lparam % 2 ^ 16).toNat ((lparam / 2 ^ 16) % 2 ^ 16).toNat).1 },
        get :: (on_resize w.app (lparam % 2 ^ 16).toNat
          ((lparam / 2 ^ 16) % 2 ^ 16).toNat).2) := by
    intro hu hm
    rw [← hlo, ← hhi]
    simp [r, get, window_procedure, hm, hu, WM_SIZE, WM_CREATE]
  have hdisplay : w.user_data ≠ 0 → message = WM_DISPLAYCHANGE →
      r = some (0, w, [get, Call.InvalidateRect hwnd]) := by
    intro hu hm
    simp [r, get, window_procedure, hm, hu, WM_SIZE, WM_CREATE, WM_DISPLAYCHANGE]
  have hpaint : w.user_data ≠ 0 → message = WM_PAINT →
      r = (on_render w.app env.render).map (fun p =>
            (0, { w with app := p.2.1 }, get :: (p.2.2 ++ [Call.ValidateRect hwnd]))) := by
    intro hu hm
    simp [r, get, window_procedure, hm, hu, WM_SIZE, WM_CREATE, WM_DISPLAYCHANGE, WM_PAINT]
  have hdestroy : w.user_data ≠ 0 → message = WM_DESTROY →
      r = some (1, w, [get, Call.PostQuitMessage 0]) := by
    intro hu hm
    simp [r, get, window_procedure, hm, hu, WM_SIZE, WM_CREATE, WM_DISPLAYCHANGE, WM_PAINT,
      WM_DESTROY]
  have hdefault : unhandled →
      r = some (env.def_window_proc, w,
        [get, Call.DefWindowProc hwnd message wparam lparam]) := by
    rintro ⟨hc, hu | ⟨h1, h2, h3, h4⟩⟩
    · simp [r, get, window_procedure, hc, hu]
    · by_cases hu : w.user_data = 0
      · simp [r, get, window_procedure, hc, hu]
      · simp [r, get, window_procedure, hc, hu, h1, h2, h3, h4]
  refine ⟨hcreate, hsize, hdisplay,
    fun hu hm => ⟨hpaint hu hm, fun hw hh => on_render_returns w.app env.render hw hh⟩,
    hdestroy, hdefault, ?_⟩
  intro p hp
  by_cases hun : unhandled
  · rw [hdefault hun, Option.some.injEq] at hp
    subst hp
    exact ⟨fun _ => hun, fun _ => by simp [get, Call.is_def_window_proc]⟩
  · have hnone : p.2.2.filter Call.is_def_window_proc = [] := by
      by_cases hc : message = WM_CREATE
      · rw [hcreate hc, Option.some.injEq] at hp
        subst hp
        simp [Call.is_def_window_proc]
      · have hu : w.user_data ≠ 0 := fun h0 => hun ⟨hc, Or.inl h0⟩
        by_cases h1 : message = WM_SIZE
        · rw [hsize hu h1, Option.some.injEq] at hp
          subst hp
          unfold on_resize
          split <;> simp [get, Call.is_def_window_proc]
        · by_cases h2 : message = WM_DISPLAYCHANGE
          · rw [hdisplay hu h2, Option.some.injEq] at hp
            subst hp
            simp [get, Call.is_def_window_proc]
          · by_cases h3 : message = WM_PAINT
            · rw [hpaint hu h3] at hp
              cases hren : on_render w.app env.render with
              | none => simp [hren] at hp
              | some q =>
                have hq := on_render_no_def_window_proc w.app env.render q hren
                simp only [hren, Option.map_some', Option.some.injEq] at hp
                subst hp
                simp only [List.filter_cons, List.filter_append, hq]
                simp [get, Call.is_def_window_proc]
            · by_cases h4 : message = WM_DESTROY
              · rw [hdestroy hu h4, Option.some.injEq] at hp
                subst hp
                simp [get, Call.is_def_window_proc]
              · exact absurd ⟨hc, Or.inr ⟨h1, h2, h3, h4⟩⟩ hun
    exact ⟨fun h => absurd hnone h, fun h => absurd h hun⟩

/-- C9 at a concrete input: `WM_SIZE` with `lparam = 480 * 2 ^ 16 + 640` on a window whose
user data points to an object with a render target resizes the target to 640 by 480 and
returns 0, without a `DefWindowProc` call. -/
theorem C9_window_procedure_dispatch_witness :
    sample_window.user_data ≠ 0 ∧
    window_procedure sample_window 1 WM_SIZE 0 31457920 sample_proc_env =
      some (0, sample_window, [Call.GetWindowLongPtr 1, Call.Resize (some 11) 640 480]) :=
  ⟨by decide,
   (C9_window_procedure_dispatch sample_window 1 WM_SIZE 0 31457920 sample_proc_env).2.1
     (by decide) rfl⟩

/-! ## The pixel loops -/

theorem foldlM_range_invariant {β : Type} (f : β → Nat → Option β) (P : Nat → β → Prop)
    (n : Nat) (b0 : β) (h0 : P 0 b0)
    (hstep : ∀ k, k < n → ∀ b, P k b → ∃ b1, f b k = some b1 ∧ P (k + 1) b1) :
    ∃ b, (List.range n).foldlM f b0 = some b ∧ P n b := by
  induction n with
  | zero => exact ⟨b0, rfl, h0⟩
  | succ n ih =>
    obtain ⟨b, hb, hP⟩ := ih (fun k hk => hstep k (Nat.lt_succ_of_lt hk))
    obtain ⟨b1, hb1, hP1⟩ := hstep n (Nat.lt_succ_self n) b hP
    refine ⟨b1, ?_, hP1⟩
    rw [List.range_succ, List.foldlM_append, hb]
    simp [hb1]

theorem pixel_index_lt (height width y x : Nat) (hy : y < height) (hx : x < width) :
    y * width + x < height * width := by
  have h1 : (y + 1) * width ≤ height * width := Nat.mul_le_mul_right width hy
  rw [Nat.succ_mul] at h1
  omega

theorem pixel_offset_eq (height width y x : Nat) (hsize : height * width * 4 < 2 ^ 32)
    (hy : y < height) (hx : x < width) :
    pixel_offset width y x = 4 * (y * width + x) := by
  have h1 := pixel_index_lt height width y x hy hx
  unfold pixel_offset
  omega

theorem write_pixel_filled (height width : Nat) (junk : Nat → Nat)
    (hsize : height * width * 4 < 2 ^ 32) (y x : Nat) (hy : y < height) (hx : x < width)
    (buf : Buffer) (hbuf : Filled height width junk (y * width + x) buf) :
    ∃ buf1, write_pixel height width y x buf = some buf1 ∧
      Filled height width junk (y * width + x + 1) buf1 := by
  obtain ⟨hlen, hwr, hbytes⟩ := hbuf
  have h1 := pixel_index_lt height width y x hy hx
  have hoff := pixel_offset_eq height width y x hsize hy hx
  have hdiv : (y * width + x) / width = y := by
    rw [Nat.add_comm, Nat.add_mul_div_right _ _ (by omega), Nat.div_eq_of_lt hx, Nat.zero_add]
  have hmod : (y * width + x) % width = x := by
    rw [Nat.add_comm, Nat.add_mul_mod_self_right, Nat.mod_eq_of_lt hx]
  generalize hn : y * width + x = n at *
  refine ⟨{ bytes := (((buf.bytes.set (4 * n) 0).set (4 * n + 1) (gradient_channel height y)).set
              (4 * n + 2) (gradient_channel width x)).set (4 * n + 3) 255
            writes := buf.writes ++ [4 * n] ++ [4 * n + 1] ++ [4 * n + 2] ++ [4 * n + 3] },
          ?_, ?_, ?_, ?_⟩
  · simp only [write_pixel, hoff, Buffer.store, hlen, List.length_set, Option.bind_eq_bind]
    rw [if_pos (by omega)]
    simp only [Option.some_bind, List.length_set, hlen]
    rw [if_pos (by omega)]
    simp only [Option.some_bind, List.length_set, hlen]
    rw [if_pos (by omega)]
    simp only [Option.some_bind, List.length_set, hlen]
    rw [if_pos (by omega)]
    rfl
  · simp [List.length_set, hlen]
  · have e : 4 * (n + 1) = 4 * n + 3 + 1 := by omega
    simp only [hwr, e, List.range_succ]
  · intro i hi
    simp only [List.getElem?_set, List.length_set, hlen]
    by_cases h3 : 4 * n + 3 = i
    · subst h3
      have e : (4 * n + 3) / 4 = n := by omega
      rw [if_pos rfl, if_pos (by omega), if_pos (by omega)]
      unfold pixel_byte
      rw [if_neg (by omega), if_neg (by omega), if_neg (by omega)]
    · rw [if_neg h3]
      by_cases h2 : 4 * n + 2 = i
      · subst h2
        have e : (4 * n + 2) / 4 = n := by omega
        rw [if_pos rfl, if_pos (by omega), if_pos (by omega)]
        unfold pixel_byte
        rw [if_neg (by omega), if_neg (by omega), if_pos (by omega), e, hmod]
      · rw [if_neg h2]
        by_cases h1 : 4 * n + 1 = i
        · subst h1
          have e : (4 * n + 1) / 4 = n := by omega
          rw [if_pos rfl, if_pos (by omega), if_pos (by omega)]
          unfold pixel_byte
          rw [if_neg (by omega), if_pos (by omega), e, hdiv]
        · rw [if_neg h1]
          by_cases h0 : 4 * n = i
          · subst h0
            rw [if_pos rfl, if_pos (by omega), if_pos (by omega)]
            unfold pixel_byte
            rw [if_pos (by omega)]
          · rw [if_neg h0, hbytes i hi]
            by_cases hlt : i < 4 * n
            · rw [if_pos hlt, if_pos (by omega)]
            · rw [if_neg hlt, if_neg (by omega)]

theorem write_row_filled (height width : Nat) (junk : Nat → Nat)
    (hsize : height * width * 4 < 2 ^ 32) (y : Nat) (hy : y < height)
    (buf : Buffer) (hbuf : Filled height width junk (y * width) buf) :
    ∃ buf1, write_row height width y buf = some buf1 ∧
      Filled height width junk ((y + 1) * width) buf1 := by
  have h := foldlM_range_invariant (fun b x => write_pixel height width y x b)
    (fun x b => Filled height width junk (y * width + x) b) width buf hbuf
    (fun x hx b hb => write_pixel_filled height width junk hsize y x hy hx b hb)
  rw [Nat.succ_mul]
  exact h

theorem write_image_filled (height width : Nat) (junk : Nat → Nat)
    (hsize : height * width * 4 < 2 ^ 32) :
    ∃ buf1, write_image height width (new_buffer height width junk) = some buf1 ∧
      Filled height width junk (height * width) buf1 := by
  have h0 : Filled height width junk (0 * width) (new_buffer height width junk) := by
    have e : (height * width % 2 ^ 32 * 4) % 2 ^ 32 = height * width * 4 := by omega
    refine ⟨?_, by simp [new_buffer], ?_⟩
    · simp only [new_buffer, e, List.length_map, List.length_range]
    · intro i hi
      have hlt : ¬ i < 4 * (0 * width) := by simp
      simp only [new_buffer, e, List.getElem?_map, List.getElem?_range hi, Option.map_some']
      rw [if_neg hlt]
  exact foldlM_range_invariant (fun b y => write_row height width y b)
    (fun y b => Filled height width junk (y * width) b) height (new_buffer height width junk) h0
    (fun y hy b hb => write_row_filled height width junk hsize y hy b hb)

/-! ## The gradient values -/

set_option maxRecDepth 100000 in
theorem gradient_value_400 :
    ∀ i, i < 400 →
      (gradient_value 400 i).num / (gradient_value 400 i).den = 255 * (400 - i) / 400 := by
  decide

theorem gradient_channel_400 (i : Nat) (hi : i < 400) :
    gradient_channel 400 i = 255 * (400 - i) / 400 := by
  unfold gradient_channel float_to_byte
  rw [gradient_value_400 i hi]
  omega

theorem create_device_independent_resources_returns (app : Application) (env : InitEnv) :
    ∃ buf, create_device_independent_resources app env =
        some (env.factory.hr,
          { app with direct2d_factory_ptr := env.factory.out, image_data := some buf.bytes },
          buf, [Call.D2D1CreateFactory]) ∧
      Filled 400 400 env.heap_junk (400 * 400) buf := by
  obtain ⟨buf, hbuf, hfilled⟩ := write_image_filled 400 400 env.heap_junk (by norm_num)
  exact ⟨buf, by simp [create_device_independent_resources, hbuf], hfilled⟩

theorem filled_pixel (junk : Nat → Nat) (buf : Buffer)
    (hbuf : Filled 400 400 junk (400 * 400) buf) (x y : Nat) (hx : x < 400) (hy : y < 400) :
    buf.bytes[4 * (400 * y + x)]? = some 0 ∧
    buf.bytes[4 * (400 * y + x) + 1]? = some (255 * (400 - y) / 400) ∧
    buf.bytes[4 * (400 * y + x) + 2]? = some (255 * (400 - x) / 400) ∧
    buf.bytes[4 * (400 * y + x) + 3]? = some 255 := by
  obtain ⟨_, _, hbytes⟩ := hbuf
  have e1 : (4 * (400 * y + x) + 1) / 4 / 400 = y := by omega
  have e2 : (4 * (400 * y + x) + 2) / 4 % 400 = x := by omega
  refine ⟨?_, ?_, ?_, ?_⟩
  · rw [hbytes _ (by omega), if_pos (by omega)]
    unfold pixel_byte
    rw [if_pos (by omega)]
  · rw [hbytes _ (by omega), if_pos (by omega)]
    unfold pixel_byte
    rw [if_neg (by omega), if_pos (by omega), e1, gradient_channel_400 y hy]
  · rw [hbytes _ (by omega), if_pos (by omega)]
    unfold pixel_byte
    rw [if_neg (by omega), if_neg (by omega), if_pos (by omega), e2, gradient_channel_400 x hx]
  · rw [hbytes _ (by omega), if_pos (by omega)]
    unfold pixel_byte
    rw [if_neg (by omega), if_neg (by omega), if_neg (by omega)]

theorem pixel_byte_le (i : Nat) (hi : i < 400 * 400 * 4) : pixel_byte 400 400 i ≤ 255 := by
  unfold pixel_byte
  split
  · omega
  · split
    · rw [gradient_channel_400 _ (by omega)]; omega
    · split
      · rw [gradient_channel_400 _ (by omega)]; omega
      · omega

theorem floor_channel (i : Nat) (hi : i < 400) :
    Nat.floor ((255 * (400 - (i : ℚ))) / 400) = 255 * (400 - i) / 400 := by
  have e : (255 * (400 - (i : ℚ))) / 400 = ((255 * (400 - i) : Nat) : ℚ) / ((400 : Nat) : ℚ) := by
    rw [Nat.cast_mul, Nat.cast_sub (le_of_lt hi)]
    norm_num
  rw [e, Nat.floor_div_eq_div]

/-! ## Contents of the gradient bitmap (C7) -/

/-- C7: `create_device_independent_resources` returns, and in the image data it leaves,
for every pixel `(x, y)` with `x, y < 400`, the four bytes from offset `4 * (400 * y + x)`
are `0`, `floor (255 * (400 - y) / 400)`, `floor (255 * (400 - x) / 400)`, `255`, with the
quotients taken over the rationals.  The `float` value converted to a byte is below 256,
so the conversion does not wrap, and every byte of the image is at most 255; the
second byte does not increase with `y` and does not depend on `x`, the third does not
increase with `x` and does not depend on `y`; pixel `(0, 0)` is `(0, 255, 255, 255)`. -/
theorem C7_gradient_bitmap (app : Application) (env : InitEnv) :
    ∃ hr app1 buf t,
      create_device_independent_resources app env = some (hr, app1, buf, t) ∧
      app1.image_data = some buf.bytes ∧
      buf.bytes.length = 640000 ∧
      (∀ x y : Nat, x < 400 → y < 400 →
        buf.bytes[4 * (400 * y + x)]? = some 0 ∧
        buf.bytes[4 * (400 * y + x) + 1]? = some (Nat.floor ((255 * (400 - (y : ℚ))) / 400)) ∧
        buf.bytes[4 * (400 * y + x) + 2]? = some (Nat.floor ((255 * (400 - (x : ℚ))) / 400)) ∧
        buf.bytes[4 * (400 * y + x) + 3]? = some 255) ∧
      (∀ i : Nat, i < 400 → (gradient_value 400 i).num / (gradient_value 400 i).den < 256) ∧
      (∀ b : Nat, b ∈ buf.bytes → b ≤ 255) ∧
      (∀ x x2 y y2 : Nat, x < 400 → x2 < 400 → y ≤ y2 → y2 < 400 →
        buf.bytes.getD (4 * (400 * y2 + x2) + 1) 0 ≤ buf.bytes.getD (4 * (400 * y + x) + 1) 0) ∧
      (∀ x x2 y y2 : Nat, x ≤ x2 → x2 < 400 → y < 400 → y2 < 400 →
        buf.bytes.getD (4 * (400 * y2 + x2) + 2) 0 ≤ buf.bytes.getD (4 * (400 * y + x) + 2) 0) ∧
      [buf.bytes[0]?, buf.bytes[1]?, buf.bytes[2]?, buf.bytes[3]?] =
        [some 0, some 255, some 255, some 255] := by
  obtain ⟨buf, hres, hfilled⟩ := create_device_independent_resources_returns app env
  have hlen : buf.bytes.length = 640000 := hfilled.1
  refine ⟨_, _, buf, _, hres, rfl, hlen, ?_, ?_, ?_, ?_, ?_, ?_⟩
  · intro x y hx hy
    rw [floor_channel x hx, floor_channel y hy]
    exact filled_pixel env.heap_junk buf hfilled x y hx hy
  · intro i hi
    rw [gradient_value_400 i hi]
    omega
  · intro b hb
    obtain ⟨i, hi, hget⟩ := List.getElem_of_mem hb
    have h1 := hfilled.2.2 i (by omega)
    rw [if_pos (by omega), List.getElem?_eq_getElem hi, hget, Option.some.injEq] at h1
    rw [h1]
    exact pixel_byte_le i (by omega)
  · intro x x2 y y2 hx hx2 hyy hy2
    have h1 := (filled_pixel env.heap_junk buf hfilled x y hx (by omega)).2.1
    have h2 := (filled_pixel env.heap_junk buf hfilled x2 y2 hx2 hy2).2.1
    rw [List.getD_eq_getElem?_getD, List.getD_eq_getElem?_getD, h1, h2]
    simp only [Option.getD_some]
    omega
  · intro x x2 y y2 hxx hx2 hy hy2
    have h1 := (filled_pixel env.heap_junk buf hfilled x y (by omega) hy).2.2.1
    have h2 := (filled_pixel env.heap_junk buf hfilled x2 y2 hx2 hy2).2.2.1
    rw [List.getD_eq_getElem?_getD, List.getD_eq_getElem?_getD, h1, h2]
    simp only [Option.getD_some]
    omega
  · have h := filled_pixel env.heap_junk buf hfilled 0 0 (by omega) (by omega)
    simp only [Nat.mul_zero, Nat.add_zero, Nat.zero_add, Nat.sub_zero] at h
    rw [h.1, h.2.1, h.2.2.1, h.2.2.2]

/-- C7 at a concrete input: on a new object, the pixel in column 300 of row 100 has the
second byte `floor (255 * 300 / 400) = 191` and the third `floor (255 * 100 / 400) = 63`. -/
theorem C7_gradient_bitmap_witness :
    ∃ hr app1 buf t,
      create_device_independent_resources Application.ctor sample_init_env =
        some (hr, app1, buf, t) ∧
      buf.bytes[4 * (400 * 100 + 300) + 1]? = some 191 ∧
      buf.bytes[4 * (400 * 100 + 300) + 2]? = some 63 := by
  obtain ⟨hr, app1, buf, t, h1, _, _, h4, _⟩ :=
    C7_gradient_bitmap Application.ctor sample_init_env
  have h := h4 300 100 (by decide) (by decide)
  rw [floor_channel 300 (by decide), floor_channel 100 (by decide)] at h
  exact ⟨hr, app1, buf, t, h1, h.2.1, h.2.2.1⟩

/-! ## Initialisation (C5) -/

/-- C5: `initialize` returns, and its code is a success code exactly when the factory was
created and `CreateWindow` gave a non-null handle.  When the factory creation fails, its
code is returned, the only call made is `D2D1CreateFactory` (no class is registered, no
window created or shown) and the window handle is as it was, null for a new object; when
the factory is created and the window handle is null, the code is `E_FAIL`; otherwise
the code is `S_OK`, the window handle is the non-null handle and the window is shown. -/
theorem C5_initialize_result (app : Application) (env : InitEnv) :
    ∃ hr app1 t,
      initialise app env = some (hr, app1, t) ∧
      (SUCCEEDED hr = true ↔ (SUCCEEDED env.factory.hr = true ∧ env.window ≠ none)) ∧
      (SUCCEEDED env.factory.hr = false →
        hr = env.factory.hr ∧ t = [Call.D2D1CreateFactory] ∧
        app1.window_handle = app.window_handle ∧
        (app = Application.ctor → app1.window_handle = none)) ∧
      (SUCCEEDED env.factory.hr = true → env.window = none →
        hr = E_FAIL ∧ app1.window_handle = none ∧
        t = [Call.D2D1CreateFactory, Call.RegisterClassEx, Call.CreateWindow 640 480]) ∧
      (SUCCEEDED env.factory.hr = true → ∀ h, env.window = some h →
        hr = S_OK ∧ app1.window_handle = some h ∧
        t = [Call.D2D1CreateFactory, Call.RegisterClassEx, Call.CreateWindow 640 480,
             Call.ShowWindow (some h), Call.UpdateWindow (some h)]) := by
  obtain ⟨buf, hres, _⟩ := create_device_independent_resources_returns app env
  cases hf : SUCCEEDED env.factory.hr with
  | false =>
    refine ⟨env.factory.hr,
      { app with direct2d_factory_ptr := env.factory.out, image_data := some buf.bytes },
      [Call.D2D1CreateFactory], ?_, ?_, ?_, ?_, ?_⟩
    · simp only [initialise, hres, Option.bind_eq_bind, Option.some_bind, hf]
      rfl
    · simp [hf]
    · intro _
      exact ⟨rfl, rfl, rfl, fun h => by rw [h]; rfl⟩
    · intro h; cases h
    · intro h; cases h
  | true =>
    cases hw : env.window with
    | none =>
      refine ⟨E_FAIL,
        { app with
            direct2d_factory_ptr := env.factory.out
            image_data := some buf.bytes
            window_handle := none },
        [Call.D2D1CreateFactory, Call.RegisterClassEx, Call.CreateWindow 640 480], ?_, ?_, ?_,
        ?_, ?_⟩
      · simp only [initialise, hres, Option.bind_eq_bind, Option.some_bind, hf, hw]
        rfl
      · simp [SUCCEEDED, E_FAIL]
      · intro h; cases h
      · intro _ _
        exact ⟨rfl, rfl, rfl⟩
      · intro _ h hh
        cases hh
    | some h0 =>
      refine ⟨S_OK,
        { app with
            direct2d_factory_ptr := env.factory.out
            image_data := some buf.bytes
            window_handle := some h0 },
        [Call.D2D1CreateFactory, Call.RegisterClassEx, Call.CreateWindow 640 480,
         Call.ShowWindow (some h0), Call.UpdateWindow (some h0)], ?_, ?_, ?_, ?_, ?_⟩
      · simp only [initialise, hres, Option.bind_eq_bind, Option.some_bind, hf, hw]
        rfl
      · simp [SUCCEEDED, S_OK]
      · intro h; cases h
      · intro _ h
        cases h
      · intro _ h hh
        cases hh
        exact ⟨rfl, rfl, rfl⟩

/-- C5 at a concrete input: on a new object, with the factory created and no window,
`initialize` returns `E_FAIL` after creating the factory, registering the class and
calling `CreateWindow`. -/
theorem C5_initialize_result_witness :
    ∃ app1,
      initialise Application.ctor { sample_init_env with window := none } =
        some (E_FAIL, app1,
          [Call.D2D1CreateFactory, Call.RegisterClassEx, Call.CreateWindow 640 480]) := by
  obtain ⟨hr, app1, t, h1, _, _, h4, _⟩ :=
    C5_initialize_result Application.ctor { sample_init_env with window := none }
  obtain ⟨e1, _, e3⟩ := h4 (by decide) rfl
  rw [e1, e3] at h1
  exact ⟨app1, h1⟩

/-! ## Indexing of the pixel buffer (C8) -/

/-- C8: the allocation is 640000 bytes long; for `x, y < 400` and `c < 4` the offset
`((y * 400) + x) * 4 + c` is computed without leaving the range of `UINT`, equals
`4 * (400 * y + x) + c` and is below 640000; distinct `(x, y, c)` give distinct offsets;
the loops of `create_device_independent_resources` store to every offset below 640000
exactly once and to no other; and whenever `create_device_resources` calls `CreateBitmap`
it passes width 400, height 400 and pitch `400 * 4`, for which the offset of pixel `(x, y)`
is `y * pitch + 4 * x`. -/
theorem C8_pixel_indexing (app : Application) (env : InitEnv) :
    (new_buffer 400 400 env.heap_junk).bytes.length = 640000 ∧
    (∀ x y c : Nat, x < 400 → y < 400 → c < 4 →
      (y * 400 + x) * 4 + c < 2 ^ 32 ∧
      pixel_offset 400 y x + c = 4 * (400 * y + x) + c ∧
      pixel_offset 400 y x + c < 640000) ∧
    (∀ x y c x2 y2 c2 : Nat, x < 400 → y < 400 → c < 4 → x2 < 400 → y2 < 400 → c2 < 4 →
      pixel_offset 400 y x + c = pixel_offset 400 y2 x2 + c2 → x = x2 ∧ y = y2 ∧ c = c2) ∧
    (∃ hr app1 buf t,
      create_device_independent_resources app env = some (hr, app1, buf, t) ∧
      (∀ o : Nat, o < 640000 → buf.writes.count o = 1) ∧
      (∀ o : Nat, o ∈ buf.writes → o < 640000)) ∧
    (∀ (app2 : Application) (denv : DeviceEnv) (rt : Option Handle) (width height pitch : Nat),
      Call.CreateBitmap rt width height pitch ∈ (create_device_resources app2 denv).2.2 →
        width = 400 ∧ height = 400 ∧ pitch = 400 * 4 ∧
        ∀ x y : Nat, x < 400 → y < 400 → pixel_offset width y x = y * pitch + 4 * x) ∧
    Call.CreateBitmap (some 21) 400 400 (400 * 4) ∈
      (create_device_resources Application.ctor sample_device_env).2.2 := by
  have hoff : ∀ x y : Nat, x < 400 → y < 400 → pixel_offset 400 y x = 4 * (400 * y + x) := by
    intro x y hx hy
    unfold pixel_offset
    omega
  refine ⟨?_, ?_, ?_, ?_, ?_, ?_⟩
  · simp [new_buffer]
  · intro x y c hx hy hc
    rw [hoff x y hx hy]
    omega
  · intro x y c x2 y2 c2 hx hy hc hx2 hy2 hc2 h
    rw [hoff x y hx hy, hoff x2 y2 hx2 hy2] at h
    omega
  · obtain ⟨buf, hres, _, hwr, _⟩ := create_device_independent_resources_returns app env
    refine ⟨_, _, buf, _, hres, ?_, ?_⟩
    · intro o ho
      rw [hwr]
      exact List.count_eq_one_of_mem (List.nodup_range _) (List.mem_range.2 (by omega))
    · intro o ho
      rw [hwr, List.mem_range] at ho
      omega
  · intro app2 denv rt width height pitch hmem
    have hcall : width = 400 ∧ height = 400 ∧ pitch = 400 * 4 := by
      revert hmem
      cases h0 : app2.render_target_ptr <;>
      cases h1 : SUCCEEDED denv.render_target.hr <;>
      cases h2 : SUCCEEDED denv.dark_gray_brush.hr <;>
      cases h3 : SUCCEEDED denv.blue_brush.hr <;>
      simp [create_device_resources, h0, h1, h2, h3]
    obtain ⟨rfl, rfl, rfl⟩ := hcall
    refine ⟨rfl, rfl, rfl, ?_⟩
    intro x y hx hy
    rw [hoff x y hx hy]
    omega
  · decide

/-- C8 at a concrete input: the last byte of the last pixel, `(399, 399)` with `c = 3`, is
at offset 639999, inside the allocation, and `(0, 1)` starts at one pitch. -/
theorem C8_pixel_indexing_witness :
    pixel_offset 400 399 399 + 3 = 639999 ∧ pixel_offset 400 1 0 = 1600 := by
  have h := (C8_pixel_indexing Application.ctor sample_init_env).2.1
  exact ⟨(h 399 399 3 (by decide) (by decide) (by decide)).2.1,
    ((h 0 1 0 (by decide) (by decide) (by decide)).2.1)⟩

/-! ## Use of the handles while drawing (C1) -/

/-- C1 fails on the code: after a successful `initialize`, a frame in which the render
target is created and the creation of the dark-gray brush fails with `E_FAIL` leaves the
render target set and the two brushes and the bitmap null; this state is reachable, and in
it `create_device_resources` answers a success code without any creation call, so the next
`on_render` draws: it passes the null dark-gray brush to `DrawLine`, calls `GetSize` on the
null bitmap and passes the null blue brush to `FillRectangle`. -/
theorem C1_draws_with_null_handles :
    ∃ app : Application,
      Reachable app ∧
      create_device_resources app sample_frame.device = (S_OK, app, []) ∧
      app.render_target_ptr = some 21 ∧
      app.dark_gray_brush_ptr = none ∧
      app.blue_brush_ptr = none ∧
      app.image_bitmap = none ∧
      on_render app sample_frame =
        some (S_OK, app,
          [Call.BeginDraw (some 21), Call.SetTransform (some 21), Call.Clear (some 21),
           Call.GetSize (some 21),
           Call.DrawLineVertical (some 21) 0 none, Call.DrawLineVertical (some 21) 25 none,
           Call.DrawLineHorizontal (some 21) 0 none,
           Call.BitmapGetSize none, Call.BitmapGetSize none,
           Call.DrawBitmap (some 21) none, Call.FillRectangle (some 21) none,
           Call.EndDraw (some 21)]) := by
  obtain ⟨buf, hres, _⟩ :=
    create_device_independent_resources_returns Application.ctor sample_init_env
  have hx : grid_loop 50 0 = some [0, 25] := by
    rw [grid_loop_from_zero 50 (by norm_num)]; decide
  have hy : grid_loop 25 0 = some [0] := by
    rw [grid_loop_from_zero 25 (by norm_num)]; decide
  have hinit : initialise Application.ctor sample_init_env =
      some (S_OK,
        { Application.ctor with
            direct2d_factory_ptr := some 10
            image_data := some buf.bytes
            window_handle := some 1 },
        [Call.D2D1CreateFactory, Call.RegisterClassEx, Call.CreateWindow 640 480,
         Call.ShowWindow (some 1), Call.UpdateWindow (some 1)]) := by
    simp only [initialise, hres, Option.bind_eq_bind, Option.some_bind]
    rfl
  have hfail : on_render
      { Application.ctor with
          direct2d_factory_ptr := some 10
          image_data := some buf.bytes
          window_handle := some 1 } sample_brush_failure =
      some (E_FAIL,
        { Application.ctor with
            direct2d_factory_ptr := some 10
            image_data := some buf.bytes
            window_handle := some 1
            render_target_ptr := some 21 },
        [Call.GetClientRect (some 1), Call.CreateHwndRenderTarget (some 10) (some 1) 640 480,
         Call.CreateSolidColorBrush (some 21) Color.dark_gray]) := by
    simp [on_render, create_and_draw, create_device_resources, sample_brush_failure,
      sample_device_env, Application.ctor, Created.out, SUCCEEDED, S_OK, E_FAIL,
      D2DERR_RECREATE_TARGET]
  refine ⟨_, Reachable.render _ _ _ _ _
      (Reachable.init _ ⟨sample_init_env, S_OK, _, hinit, by decide⟩) hfail,
    ?_, rfl, rfl, rfl, rfl, ?_⟩
  · simp [create_device_resources]
  · simp [on_render, create_and_draw, create_device_resources, draw_grid, sample_frame, hx, hy,
      Application.ctor, SUCCEEDED, S_OK, D2DERR_RECREATE_TARGET]

end D2DApp
